import Mathlib

/-!
Verification of the cable-sizing calculation core of `src/app.py`
(Electrical Load & Wireway Sizing Dash application).

The embedding models the two reference tables (`NEC_TABLE_COPPER`,
`NEC_DIAMETERS_XHHW2`), the derived constants (`WIRE_SIZES`,
`TEMP_RATINGS`), the two lookup-driven callbacks (`update_phase_specs`,
`update_ground_specs`) and the main callback `calculate_all`.

Numbers are modelled as exact rationals (`ℚ`); the constant `math_pi`
is the exact rational value of the binary64 constant `math.pi` that the
source uses.  Nullable numeric inputs (Dash number inputs whose value
may be `None`) are `Option ℚ`.  Python truthiness on a nullable number
(`None` and `0` are falsy) is `falsy`.

`calculate_all` in the source returns one of:
  * the guard value `["---"] * 11` (a list of 11 placeholder strings),
    modelled by `CalcReturn.dashes`;
  * a 12-tuple of formatted UI outputs, modelled by `CalcReturn.outputs`
    carrying the numeric quantities and pass flags those outputs render
    (each field of `SizingResult` is one of the local variables of the
    source function, before presentation-time string formatting);
  * in Python, a `TypeError` when a `None` that the guard did not check
    (`temp_corr` or `ground_qty`) reaches the arithmetic; modelled by
    `CalcReturn.typeError`.
-/

namespace CableSizing

/-- NEC Table 310.15(B)(16) (Copper) from the source: size label to
(temperature-rating label to ampacity).  Values transcribed verbatim. -/
def NEC_TABLE_COPPER : List (String × List (String × ℚ)) := [
  ("14", [("60", 15), ("75", 20), ("90", 25)]),
  ("12", [("60", 20), ("75", 25), ("90", 30)]),
  ("10", [("60", 30), ("75", 35), ("90", 40)]),
  ("8",  [("60", 40), ("75", 50), ("90", 55)]),
  ("6",  [("60", 55), ("75", 65), ("90", 75)]),
  ("4",  [("60", 70), ("75", 85), ("90", 95)]),
  ("3",  [("60", 85), ("75", 100), ("90", 115)]),
  ("2",  [("60", 95), ("75", 115), ("90", 130)]),
  ("1",  [("60", 110), ("75", 130), ("90", 145)]),
  ("1/0", [("60", 125), ("75", 150), ("90", 170)]),
  ("2/0", [("60", 145), ("75", 175), ("90", 195)]),
  ("3/0", [("60", 165), ("75", 200), ("90", 225)]),
  ("4/0", [("60", 195), ("75", 230), ("90", 260)]),
  ("250", [("60", 215), ("75", 255), ("90", 290)]),
  ("300", [("60", 240), ("75", 285), ("90", 320)]),
  ("350", [("60", 260), ("75", 310), ("90", 350)]),
  ("400", [("60", 280), ("75", 335), ("90", 380)]),
  ("500", [("60", 320), ("75", 380), ("90", 430)]),
  ("600", [("60", 350), ("75", 420), ("90", 475)]),
  ("700", [("60", 385), ("75", 460), ("90", 520)]),
  ("750", [("60", 400), ("75", 475), ("90", 535)]),
  ("800", [("60", 410), ("75", 490), ("90", 555)]),
  ("900", [("60", 435), ("75", 520), ("90", 585)]),
  ("1000", [("60", 455), ("75", 545), ("90", 615)])]

/-- NEC Chapter 9 Table 5 (XHHW-2) approximate diameters from the source:
size label to diameter in inches.  Values transcribed verbatim. -/
def NEC_DIAMETERS_XHHW2 : List (String × ℚ) := [
  ("14", 0.133), ("12", 0.152), ("10", 0.176), ("8", 0.236),
  ("6", 0.274), ("4", 0.322), ("3", 0.350), ("2", 0.382), ("1", 0.442),
  ("1/0", 0.482), ("2/0", 0.528), ("3/0", 0.580), ("4/0", 0.637),
  ("250", 0.711), ("300", 0.766), ("350", 0.817), ("400", 0.864),
  ("500", 0.949), ("600", 1.051), ("700", 1.121), ("750", 1.156),
  ("800", 1.191), ("900", 1.251), ("1000", 1.317)]

/-- `WIRE_SIZES = list(NEC_TABLE_COPPER.keys())` from the source. -/
def WIRE_SIZES : List String := NEC_TABLE_COPPER.map Prod.fst

/-- `TEMP_RATINGS = ['60', '75', '90']` from the source. -/
def TEMP_RATINGS : List String := ["60", "75", "90"]

/-- Ampacity lookup: `NEC_TABLE_COPPER[size][temp]` when
`size in NEC_TABLE_COPPER and temp in NEC_TABLE_COPPER[size]`,
otherwise `none` (the membership test fails). -/
def lookupAmpacity (size temp : String) : Option ℚ :=
  match NEC_TABLE_COPPER.lookup size with
  | some inner => inner.lookup temp
  | none => none

/-- Diameter lookup: `NEC_DIAMETERS_XHHW2[size]` when
`size in NEC_DIAMETERS_XHHW2`, otherwise `none`. -/
def lookupDiameter (size : String) : Option ℚ :=
  NEC_DIAMETERS_XHHW2.lookup size

/-- The exact rational value of the binary64 constant `math.pi`
(`884279719003555 * 2 ^ -48`) used by the source for circle areas. -/
def math_pi : ℚ := 884279719003555 / 281474976710656

/-- The ten nullable numeric inputs of `calculate_all`, in the order of
the source function's parameter list. -/
structure SizingInput where
  fla : Option ℚ
  ocpd : Option ℚ
  parallel : Option ℚ
  num_wireways : Option ℚ
  temp_corr : Option ℚ
  base_ampacity : Option ℚ
  phase_diam : Option ℚ
  ground_diam : Option ℚ
  ground_qty : Option ℚ
  wireway_area : Option ℚ
deriving DecidableEq

/-- Python truthiness test used by `all([...])` on a nullable number:
`None` and `0` are falsy, every other number is truthy. -/
def falsy (x : Option ℚ) : Bool :=
  match x with
  | none => true
  | some v => v == 0

/-- The local quantities computed by `calculate_all` on the valid path;
the 12 UI outputs of the callback are presentation-time renderings of
these values (formatted strings, colour classes and banners). -/
structure SizingResult where
  calculated_ampacity : ℚ
  is_ampacity_safe : Bool
  conductors_in_raceway : ℚ
  phase_area : ℚ
  ground_area : ℚ
  total_phase_area : ℚ
  total_ground_area : ℚ
  total_fill_area : ℚ
  fill_percentage : ℚ
  is_fill_safe : Bool
deriving DecidableEq

/-- Possible results of one invocation of the `calculate_all` callback. -/
inductive CalcReturn where
  | dashes (strs : List String)
  | typeError
  | outputs (r : SizingResult)
deriving DecidableEq

/-- Number of `Output(...)` slots declared for the `calculate_all`
callback in the source (lines 246-261): 12. -/
def numDeclaredOutputs : Nat := 12

/-- The guard return value of the source: `["---"] * 11`. -/
def dashSentinel : CalcReturn := CalcReturn.dashes (List.replicate 11 "---")

/-- The `calculate_all` callback of the source.  The guard
`if not all([fla, ocpd, parallel, num_wireways, base_ampacity,
phase_diam, ground_diam, wireway_area])` tests exactly those eight
arguments (`temp_corr` and `ground_qty` are not in the list).  When the
guard passes, those eight are non-`None`; if `temp_corr` or
`ground_qty` is `None` it reaches the arithmetic
(`base_ampacity * parallel * temp_corr`, `ground_qty * ground_area`)
and Python raises `TypeError`, modelled by `CalcReturn.typeError`. -/
def calculate_all (i : SizingInput) : CalcReturn :=
  if falsy i.fla || falsy i.ocpd || falsy i.parallel || falsy i.num_wireways ||
      falsy i.base_ampacity || falsy i.phase_diam || falsy i.ground_diam ||
      falsy i.wireway_area then
    dashSentinel
  else
    match i.ocpd, i.parallel, i.num_wireways, i.temp_corr, i.base_ampacity,
        i.phase_diam, i.ground_diam, i.ground_qty, i.wireway_area with
    | some ocpd, some parallel, some num_wireways, some temp_corr,
      some base_ampacity, some phase_diam, some ground_diam, some ground_qty,
      some wireway_area =>
      let calculated_ampacity := base_ampacity * parallel * temp_corr
      let is_ampacity_safe := decide (calculated_ampacity > ocpd)
      let conductors_in_raceway := (parallel / num_wireways) * 3
      let phase_area := math_pi * ((phase_diam / 2) ^ 2)
      let ground_area := math_pi * ((ground_diam / 2) ^ 2)
      let total_phase_area := conductors_in_raceway * phase_area
      let total_ground_area := ground_qty * ground_area
      let total_fill_area := total_phase_area + total_ground_area
      let fill_percentage := (total_fill_area / wireway_area) * 100
      let is_fill_safe := decide (fill_percentage ≤ 20)
      CalcReturn.outputs {
        calculated_ampacity := calculated_ampacity
        is_ampacity_safe := is_ampacity_safe
        conductors_in_raceway := conductors_in_raceway
        phase_area := phase_area
        ground_area := ground_area
        total_phase_area := total_phase_area
        total_ground_area := total_ground_area
        total_fill_area := total_fill_area
        fill_percentage := fill_percentage
        is_fill_safe := is_fill_safe }
    | _, _, _, _, _, _, _, _, _ => CalcReturn.typeError

/-- Convenience constructor for a `SizingInput`, arguments in the order
of the source function's parameter list. -/
def mkInput (fla ocpd parallel num_wireways temp_corr base_ampacity
    phase_diam ground_diam ground_qty wireway_area : Option ℚ) : SizingInput :=
  ⟨fla, ocpd, parallel, num_wireways, temp_corr, base_ampacity,
    phase_diam, ground_diam, ground_qty, wireway_area⟩

/-- The `update_phase_specs` callback of the source.  `triggered` models
`dash.callback_context.triggered` being non-empty; on the untriggered
initial call the current values are returned.  Otherwise each lookup
replaces the corresponding value only when it succeeds. -/
def update_phase_specs (triggered : Bool) (size temp : String)
    (current_amp current_diam : Option ℚ) : Option ℚ × Option ℚ :=
  if triggered = false then (current_amp, current_diam)
  else
    let new_amp := match lookupAmpacity size temp with
      | some a => some a
      | none => current_amp
    let new_diam := match lookupDiameter size with
      | some d => some d
      | none => current_diam
    (new_amp, new_diam)

/-- The `update_ground_specs` callback of the source: returns the table
diameter when the size is a key of `NEC_DIAMETERS_XHHW2`, otherwise the
current value unchanged. -/
def update_ground_specs (size : String) (current_diam : Option ℚ) : Option ℚ :=
  match lookupDiameter size with
  | some d => some d
  | none => current_diam

/-- On an input whose eight guarded fields are present and nonzero and
whose `temp_corr` and `ground_qty` are also present, `calculate_all`
produces the output record computed by the source formulas.  Note that
no hypothesis on `temp_corr` or `ground_qty` being nonzero is needed:
the guard does not test them. -/
theorem calculate_all_valid (fla ocpd parallel nw tc ba pd gd gq wa : ℚ)
    (hfla : fla ≠ 0) (hocpd : ocpd ≠ 0) (hpar : parallel ≠ 0) (hnw : nw ≠ 0)
    (hba : ba ≠ 0) (hpd : pd ≠ 0) (hgd : gd ≠ 0) (hwa : wa ≠ 0) :
    calculate_all (mkInput (some fla) (some ocpd) (some parallel) (some nw)
      (some tc) (some ba) (some pd) (some gd) (some gq) (some wa)) =
    CalcReturn.outputs {
      calculated_ampacity := ba * parallel * tc
      is_ampacity_safe := decide (ba * parallel * tc > ocpd)
      conductors_in_raceway := (parallel / nw) * 3
      phase_area := math_pi * ((pd / 2) ^ 2)
      ground_area := math_pi * ((gd / 2) ^ 2)
      total_phase_area := (parallel / nw) * 3 * (math_pi * ((pd / 2) ^ 2))
      total_ground_area := gq * (math_pi * ((gd / 2) ^ 2))
      total_fill_area := (parallel / nw) * 3 * (math_pi * ((pd / 2) ^ 2)) +
        gq * (math_pi * ((gd / 2) ^ 2))
      fill_percentage := (((parallel / nw) * 3 * (math_pi * ((pd / 2) ^ 2)) +
        gq * (math_pi * ((gd / 2) ^ 2))) / wa) * 100
      is_fill_safe := decide ((((parallel / nw) * 3 * (math_pi * ((pd / 2) ^ 2)) +
        gq * (math_pi * ((gd / 2) ^ 2))) / wa) * 100 ≤ 20) } := by
  simp [calculate_all, mkInput, falsy, hfla, hocpd, hpar, hnw, hba, hpd, hgd, hwa]

/-- Claim C1 (code bug): the guard of `calculate_all` was meant to send
every null-or-zero input to the uniform dash sentinel, but it omits
`temp_corr` and `ground_qty`.  At the app's default values with
`temp_corr = None` the function raises `TypeError` instead of returning
the sentinel; with `ground_qty = 0` it returns a normal output record;
and the sentinel itself has 11 entries while the callback declares 12
output slots, so even the guarded branch cannot render every display
field as a dash. -/
theorem claim_C1_guard_bug :
    calculate_all (mkInput (some 2886.8) (some 3000) (some 6) (some 2) none
      (some 535) (some 1.156) (some 0.949) (some 1) (some 56.27)) =
      CalcReturn.typeError ∧
    (∃ r : SizingResult,
      calculate_all (mkInput (some 2886.8) (some 3000) (some 6) (some 2)
        (some 0.96) (some 535) (some 1.156) (some 0.949) (some 0)
        (some 56.27)) = CalcReturn.outputs r) ∧
    dashSentinel = CalcReturn.dashes (List.replicate 11 "---") ∧
    (List.replicate 11 "---").length ≠ numDeclaredOutputs := by
  refine ⟨by norm_num [calculate_all, mkInput, falsy],
    ⟨_, calculate_all_valid 2886.8 3000 6 2 0.96 535 1.156
    0.949 0 56.27 (by norm_num) (by norm_num) (by norm_num) (by norm_num)
    (by norm_num) (by norm_num) (by norm_num) (by norm_num)⟩, rfl, by decide⟩

/-- Claim C2: for every valid (all ten fields present and nonzero)
input, `calculate_all` computes `calculated_ampacity` exactly equal to
`base_ampacity * parallel * temp_corr`. -/
theorem claim_C2_calculated_ampacity (fla ocpd parallel nw tc ba pd gd gq wa : ℚ)
    (hfla : fla ≠ 0) (hocpd : ocpd ≠ 0) (hpar : parallel ≠ 0) (hnw : nw ≠ 0)
    (htc : tc ≠ 0) (hba : ba ≠ 0) (hpd : pd ≠ 0) (hgd : gd ≠ 0)
    (hgq : gq ≠ 0) (hwa : wa ≠ 0) :
    ∃ r : SizingResult,
      calculate_all (mkInput (some fla) (some ocpd) (some parallel) (some nw)
        (some tc) (some ba) (some pd) (some gd) (some gq) (some wa)) =
        CalcReturn.outputs r ∧
      r.calculated_ampacity = ba * parallel * tc :=
  ⟨_, calculate_all_valid fla ocpd parallel nw tc ba pd gd gq wa
    hfla hocpd hpar hnw hba hpd hgd hwa, rfl⟩

/-- Witness for C2 at the concrete scenario of the spec:
base_ampacity 535, parallel 6, temp_correction 0.96 (other fields at
the app defaults) gives calculated ampacity 535 * 6 * 0.96 = 3081.6 A. -/
theorem claim_C2_calculated_ampacity_witness :
    ∃ r : SizingResult,
      calculate_all (mkInput (some 2886.8) (some 3000) (some 6) (some 2)
        (some 0.96) (some 535) (some 1.156) (some 0.949) (some 1)
        (some 56.27)) = CalcReturn.outputs r ∧
      r.calculated_ampacity = 535 * 6 * 0.96 ∧
      r.calculated_ampacity = 3081.6 := by
  obtain ⟨r, hr, hval⟩ := claim_C2_calculated_ampacity 2886.8 3000 6 2 0.96
    535 1.156 0.949 1 56.27 (by norm_num) (by norm_num) (by norm_num)
    (by norm_num) (by norm_num) (by norm_num) (by norm_num) (by norm_num)
    (by norm_num) (by norm_num)
  exact ⟨r, hr, hval, by rw [hval]; norm_num⟩

/-- Claim C3: for every valid input, the ampacity pass flag is true if
and only if the calculated ampacity strictly exceeds the OCPD trip
setting (equality counts as fail). -/
theorem claim_C3_ampacity_pass_strict (fla ocpd parallel nw tc ba pd gd gq wa : ℚ)
    (hfla : fla ≠ 0) (hocpd : ocpd ≠ 0) (hpar : parallel ≠ 0) (hnw : nw ≠ 0)
    (htc : tc ≠ 0) (hba : ba ≠ 0) (hpd : pd ≠ 0) (hgd : gd ≠ 0)
    (hgq : gq ≠ 0) (hwa : wa ≠ 0) :
    ∃ r : SizingResult,
      calculate_all (mkInput (some fla) (some ocpd) (some parallel) (some nw)
        (some tc) (some ba) (some pd) (some gd) (some gq) (some wa)) =
        CalcReturn.outputs r ∧
      (r.is_ampacity_safe = true ↔ r.calculated_ampacity > ocpd) :=
  ⟨_, calculate_all_valid fla ocpd parallel nw tc ba pd gd gq wa
    hfla hocpd hpar hnw hba hpd hgd hwa, by simp⟩

/-- Witness for C3 at the spec scenario: 3081.6 A > 3000 A, flag true. -/
theorem claim_C3_ampacity_pass_strict_witness :
    ∃ r : SizingResult,
      calculate_all (mkInput (some 2886.8) (some 3000) (some 6) (some 2)
        (some 0.96) (some 535) (some 1.156) (some 0.949) (some 1)
        (some 56.27)) = CalcReturn.outputs r ∧
      (r.is_ampacity_safe = true ↔ r.calculated_ampacity > 3000) :=
  claim_C3_ampacity_pass_strict 2886.8 3000 6 2 0.96 535 1.156 0.949 1 56.27
    (by norm_num) (by norm_num) (by norm_num) (by norm_num) (by norm_num)
    (by norm_num) (by norm_num) (by norm_num) (by norm_num) (by norm_num)

/-- Claim C4: for every valid input, the total fill area is
`conductors_per_raceway * pi * (phase_diam / 2) ^ 2 +
ground_qty * pi * (ground_diam / 2) ^ 2`, the fill percentage is
`(total_fill_area / wireway_area) * 100`, and the fill pass flag is
true if and only if the fill percentage is at most 20 (inclusive). -/
theorem claim_C4_fill_formulas (fla ocpd parallel nw tc ba pd gd gq wa : ℚ)
    (hfla : fla ≠ 0) (hocpd : ocpd ≠ 0) (hpar : parallel ≠ 0) (hnw : nw ≠ 0)
    (htc : tc ≠ 0) (hba : ba ≠ 0) (hpd : pd ≠ 0) (hgd : gd ≠ 0)
    (hgq : gq ≠ 0) (hwa : wa ≠ 0) :
    ∃ r : SizingResult,
      calculate_all (mkInput (some fla) (some ocpd) (some parallel) (some nw)
        (some tc) (some ba) (some pd) (some gd) (some gq) (some wa)) =
        CalcReturn.outputs r ∧
      r.total_fill_area = r.conductors_in_raceway * (math_pi * ((pd / 2) ^ 2)) +
        gq * (math_pi * ((gd / 2) ^ 2)) ∧
      r.fill_percentage = (r.total_fill_area / wa) * 100 ∧
      (r.is_fill_safe = true ↔ r.fill_percentage ≤ 20) :=
  ⟨_, calculate_all_valid fla ocpd parallel nw tc ba pd gd gq wa
    hfla hocpd hpar hnw hba hpd hgd hwa, rfl, rfl, by simp⟩

/-- Witness for C4 at a boundary input: diameters 2, one parallel
conductor, one wireway, one ground, wireway area exactly 20 * pi, so
that the fill percentage is exactly 20 and the inclusive threshold
makes the flag true. -/
theorem claim_C4_fill_formulas_witness :
    (∃ r : SizingResult,
      calculate_all (mkInput (some 1) (some 1) (some 1) (some 1)
        (some 1) (some 1) (some 2) (some 2) (some 1)
        (some (20 * math_pi))) = CalcReturn.outputs r ∧
      r.total_fill_area = r.conductors_in_raceway * (math_pi * (((2 : ℚ) / 2) ^ 2)) +
        1 * (math_pi * (((2 : ℚ) / 2) ^ 2)) ∧
      r.fill_percentage = (r.total_fill_area / (20 * math_pi)) * 100 ∧
      (r.is_fill_safe = true ↔ r.fill_percentage ≤ 20)) ∧
    (∃ r : SizingResult,
      calculate_all (mkInput (some 1) (some 1) (some 1) (some 1)
        (some 1) (some 1) (some 2) (some 2) (some 1)
        (some (20 * math_pi))) = CalcReturn.outputs r ∧
      r.fill_percentage = 20 ∧ r.is_fill_safe = true) := by
  have h := claim_C4_fill_formulas 1 1 1 1 1 1 2 2 1 (20 * math_pi)
    (by norm_num) (by norm_num) (by norm_num) (by norm_num) (by norm_num)
    (by norm_num) (by norm_num) (by norm_num) (by norm_num)
    (by rw [math_pi]; norm_num)
  refine ⟨h, ?_⟩
  exact ⟨_, calculate_all_valid 1 1 1 1 1 1 2 2 1 (20 * math_pi)
    (by norm_num) (by norm_num) (by norm_num) (by norm_num) (by norm_num)
    (by norm_num) (by norm_num) (by rw [math_pi]; norm_num),
    by rw [math_pi]; norm_num, by rw [math_pi]; norm_num⟩

/-- Claim C5: for every valid input, `conductors_per_raceway` is
`(parallel / num_wireways) * 3` with exact (unrounded) division, and it
is used directly in the phase fill term. -/
theorem claim_C5_conductors_fractional (fla ocpd parallel nw tc ba pd gd gq wa : ℚ)
    (hfla : fla ≠ 0) (hocpd : ocpd ≠ 0) (hpar : parallel ≠ 0) (hnw : nw ≠ 0)
    (htc : tc ≠ 0) (hba : ba ≠ 0) (hpd : pd ≠ 0) (hgd : gd ≠ 0)
    (hgq : gq ≠ 0) (hwa : wa ≠ 0) :
    ∃ r : SizingResult,
      calculate_all (mkInput (some fla) (some ocpd) (some parallel) (some nw)
        (some tc) (some ba) (some pd) (some gd) (some gq) (some wa)) =
        CalcReturn.outputs r ∧
      r.conductors_in_raceway = (parallel / nw) * 3 ∧
      r.total_phase_area = r.conductors_in_raceway * r.phase_area :=
  ⟨_, calculate_all_valid fla ocpd parallel nw tc ba pd gd gq wa
    hfla hocpd hpar hnw hba hpd hgd hwa, rfl, rfl⟩

/-- Witness for C5 with parallel 5 and two wireways: the conductor
count is the fraction 15 / 2 = 7.5, used unrounded. -/
theorem claim_C5_conductors_fractional_witness :
    ∃ r : SizingResult,
      calculate_all (mkInput (some 2886.8) (some 3000) (some 5) (some 2)
        (some 0.96) (some 535) (some 1.156) (some 0.949) (some 1)
        (some 56.27)) = CalcReturn.outputs r ∧
      r.conductors_in_raceway = 15 / 2 ∧
      r.total_phase_area = r.conductors_in_raceway * r.phase_area := by
  obtain ⟨r, hr, h1, h2⟩ := claim_C5_conductors_fractional 2886.8 3000 5 2 0.96
    535 1.156 0.949 1 56.27 (by norm_num) (by norm_num) (by norm_num)
    (by norm_num) (by norm_num) (by norm_num) (by norm_num) (by norm_num)
    (by norm_num) (by norm_num)
  exact ⟨r, hr, by rw [h1]; norm_num, h2⟩

/-- Claim C6: the reference tables hold the code-adopted values: the
ampacity for size "750" at temperature rating "90" is 535, and the
diameter for size "500" is 0.949. -/
theorem claim_C6_table_values :
    lookupAmpacity "750" "90" = some 535 ∧
    lookupDiameter "500" = some 0.949 :=
  ⟨rfl, rfl⟩

/-- Claim C7: when a lookup label is absent from its table, the
defaulting callbacks keep the prior value: a missed ampacity lookup
leaves the current ampacity, a missed diameter lookup leaves the
current diameter, in both `update_phase_specs` and
`update_ground_specs`. -/
theorem claim_C7_miss_keeps_prior (size temp : String)
    (current_amp current_diam : Option ℚ) :
    (lookupAmpacity size temp = none →
      (update_phase_specs true size temp current_amp current_diam).1 =
        current_amp) ∧
    (lookupDiameter size = none →
      (update_phase_specs true size temp current_amp current_diam).2 =
        current_diam) ∧
    (lookupDiameter size = none →
      update_ground_specs size current_diam = current_diam) := by
  refine ⟨fun h => ?_, fun h => ?_, fun h => ?_⟩ <;>
    simp [update_phase_specs, update_ground_specs, h]

/-- Witness for C7 at the absent size label "7500": both lookups miss
and the callbacks return the prior values unchanged. -/
theorem claim_C7_miss_keeps_prior_witness :
    lookupAmpacity "7500" "90" = none ∧
    lookupDiameter "7500" = none ∧
    (update_phase_specs true "7500" "90" (some 400) (some 1.156)).1 =
      some 400 ∧
    (update_phase_specs true "7500" "90" (some 400) (some 1.156)).2 =
      some 1.156 ∧
    update_ground_specs "7500" (some 1.156) = some 1.156 :=
  ⟨rfl, rfl,
    (claim_C7_miss_keeps_prior "7500" "90" (some 400) (some 1.156)).1 rfl,
    (claim_C7_miss_keeps_prior "7500" "90" (some 400) (some 1.156)).2.1 rfl,
    (claim_C7_miss_keeps_prior "7500" "90" (some 400) (some 1.156)).2.2 rfl⟩

/-- Claim C8: `calculate_all` is a pure function of its input snapshot:
two invocations on identical snapshots return identical results (the
embedding has no other state for it to read). -/
theorem claim_C8_deterministic (i j : SizingInput) (h : i = j) :
    calculate_all i = calculate_all j := by
  rw [h]

/-- Witness for C8 at the app's default input snapshot. -/
theorem claim_C8_deterministic_witness :
    calculate_all (mkInput (some 2886.8) (some 3000) (some 6) (some 2)
      (some 0.96) (some 535) (some 1.156) (some 0.949) (some 1)
      (some 56.27)) =
    calculate_all (mkInput (some 2886.8) (some 3000) (some 6) (some 2)
      (some 0.96) (some 535) (some 1.156) (some 0.949) (some 1)
      (some 56.27)) :=
  claim_C8_deterministic
    (mkInput (some 2886.8) (some 3000) (some 6) (some 2) (some 0.96)
      (some 535) (some 1.156) (some 0.949) (some 1) (some 56.27))
    (mkInput (some 2886.8) (some 3000) (some 6) (some 2) (some 0.96)
      (some 535) (some 1.156) (some 0.949) (some 1) (some 56.27)) rfl

/-- Claim C9: two valid input snapshots that differ only in `fla`
produce identical results: after the guard, `fla` is never used. -/
theorem claim_C9_fla_noninterference
    (fla fla' ocpd parallel nw tc ba pd gd gq wa : ℚ)
    (hfla : fla ≠ 0) (hfla' : fla' ≠ 0) (hocpd : ocpd ≠ 0)
    (hpar : parallel ≠ 0) (hnw : nw ≠ 0) (htc : tc ≠ 0) (hba : ba ≠ 0)
    (hpd : pd ≠ 0) (hgd : gd ≠ 0) (hgq : gq ≠ 0) (hwa : wa ≠ 0) :
    calculate_all (mkInput (some fla) (some ocpd) (some parallel) (some nw)
      (some tc) (some ba) (some pd) (some gd) (some gq) (some wa)) =
    calculate_all (mkInput (some fla') (some ocpd) (some parallel) (some nw)
      (some tc) (some ba) (some pd) (some gd) (some gq) (some wa)) := by
  rw [calculate_all_valid fla ocpd parallel nw tc ba pd gd gq wa
      hfla hocpd hpar hnw hba hpd hgd hwa,
    calculate_all_valid fla' ocpd parallel nw tc ba pd gd gq wa
      hfla' hocpd hpar hnw hba hpd hgd hwa]

/-- Witness for C9: changing `fla` from the default 2886.8 to 99999
leaves the result unchanged. -/
theorem claim_C9_fla_noninterference_witness :
    calculate_all (mkInput (some 2886.8) (some 3000) (some 6) (some 2)
      (some 0.96) (some 535) (some 1.156) (some 0.949) (some 1)
      (some 56.27)) =
    calculate_all (mkInput (some 99999) (some 3000) (some 6) (some 2)
      (some 0.96) (some 535) (some 1.156) (some 0.949) (some 1)
      (some 56.27)) :=
  claim_C9_fla_noninterference 2886.8 99999 3000 6 2 0.96 535 1.156 0.949 1
    56.27 (by norm_num) (by norm_num) (by norm_num) (by norm_num)
    (by norm_num) (by norm_num) (by norm_num) (by norm_num) (by norm_num)
    (by norm_num) (by norm_num)

/-- Claim C10: for every size in `WIRE_SIZES` and temperature in
`TEMP_RATINGS` (the dropdown options), both lookups in
`update_phase_specs` succeed, so the keep-prior-value fallback is
unreachable: the callback result does not depend on the current
values. -/
theorem claim_C10_dropdown_lookups_total (s t : String)
    (hs : s ∈ WIRE_SIZES) (ht : t ∈ TEMP_RATINGS) :
    (lookupAmpacity s t).isSome = true ∧
    (lookupDiameter s).isSome = true ∧
    ∀ ca ca' cd cd' : Option ℚ,
      update_phase_specs true s t ca cd =
        update_phase_specs true s t ca' cd' := by
  have hall : ∀ x ∈ WIRE_SIZES, ∀ y ∈ TEMP_RATINGS,
      (lookupAmpacity x y).isSome = true ∧
        (lookupDiameter x).isSome = true := by decide
  obtain ⟨ha, hd⟩ := hall s hs t ht
  obtain ⟨a, hA⟩ := Option.isSome_iff_exists.mp ha
  obtain ⟨d, hD⟩ := Option.isSome_iff_exists.mp hd
  exact ⟨ha, hd, fun ca ca' cd cd' => by simp [update_phase_specs, hA, hD]⟩

/-- Witness for C10 at the default dropdown selection "750" / "90". -/
theorem claim_C10_dropdown_lookups_total_witness :
    (lookupAmpacity "750" "90").isSome = true ∧
    (lookupDiameter "750").isSome = true ∧
    ∀ ca ca' cd cd' : Option ℚ,
      update_phase_specs true "750" "90" ca cd =
        update_phase_specs true "750" "90" ca' cd' :=
  claim_C10_dropdown_lookups_total "750" "90" (by decide) (by decide)

end CableSizing
